import Mathlib

/-!
Shallow embedding of `src/crypto/signature/secp256k1/src/lib.rs`
(WeDPR-Lab-Crypto, `WedprSecp256k1Recover`).

The elliptic-curve arithmetic library (rust `secp256k1`) is an external
collaborator of the code under verification; it is embedded as an abstract
interface `CurveLib` together with the contract `CurveLib.Spec` stating the
guarantees that library documents (lengths of serializations, round-trips of
parse/serialize, recovery of the signing key's public key).  The four
operations of the repository (`sign`, `verify`, `generate_keypair`,
`recover_public_key`) are translated statement-by-statement from the Rust
source, parametric in the curve library.  Byte sequences are `List Nat`.
-/

namespace WedprSecp256k1

/-- The error enum `wedpr_l_utils::error::WedprError` (the variants used by
this crate plus the other declared variants). -/
inductive WedprError where
  | NotImplementedError
  | FormatError
  | ArgumentError
  | DecodeError
  | VerificationError
deriving DecidableEq, Repr

/-- Abstract interface of the external `secp256k1` curve library: the types
and operations `lib.rs` calls into.  `pubkeyOf` models
`PublicKey::from_secret_key`, the public key the library associates to a
secret key (used to state what `recover` returns on an honest signature and
what `generate_keypair` draws). -/
structure CurveLib where
  SecretKey : Type
  PublicKey : Type
  Message : Type
  RecSig : Type
  RecoveryId : Type
  /-- `SecretKey::from_slice` -/
  secretKeyFromSlice : List Nat → Option SecretKey
  /-- `Message::from_slice` -/
  messageFromSlice : List Nat → Option Message
  /-- `PublicKey::from_secret_key` -/
  pubkeyOf : SecretKey → PublicKey
  /-- `Secp256k1::sign_recoverable` (infallible in the library API) -/
  signRecoverable : Message → SecretKey → RecSig
  /-- `RecoverableSignature::serialize_compact`, returning the recovery id
  and the 64-byte compact (r,s) serialization -/
  serializeCompact : RecSig → RecoveryId × List Nat
  /-- `RecoveryId::to_i32` -/
  recoveryIdToI32 : RecoveryId → Int
  /-- `RecoveryId::from_i32` -/
  recoveryIdFromI32 : Int → Option RecoveryId
  /-- `RecoverableSignature::from_compact` -/
  fromCompact : List Nat → RecoveryId → Option RecSig
  /-- `Secp256k1::recover` -/
  recover : Message → RecSig → Option PublicKey
  /-- `PublicKey::serialize_uncompressed` -/
  serializeUncompressed : PublicKey → List Nat
  /-- the 32-byte representation of a secret key (`as_ref` / `Index`) -/
  skBytes : SecretKey → List Nat

/-- The documented contract of the curve library, assumed by the claims that
need round-trip or length facts about the library's own operations. -/
structure CurveLib.Spec (L : CurveLib) : Prop where
  messageFromSlice_isSome :
    ∀ m : List Nat, (L.messageFromSlice m).isSome ↔ m.length = 32
  secretKeyFromSlice_skBytes :
    ∀ k, L.secretKeyFromSlice (L.skBytes k) = some k
  serializeCompact_length :
    ∀ s, (L.serializeCompact s).2.length = 64
  recoveryIdToI32_nonneg :
    ∀ r, 0 ≤ L.recoveryIdToI32 r
  recoveryIdToI32_le :
    ∀ r, L.recoveryIdToI32 r ≤ 3
  recoveryIdFromI32_toI32 :
    ∀ r, L.recoveryIdFromI32 (L.recoveryIdToI32 r) = some r
  fromCompact_serializeCompact :
    ∀ s, L.fromCompact (L.serializeCompact s).2 (L.serializeCompact s).1 = some s
  recover_signRecoverable :
    ∀ m k, L.recover m (L.signRecoverable m k) = some (L.pubkeyOf k)
  serializeUncompressed_length :
    ∀ p, (L.serializeUncompressed p).length = 65

/-- `FISCO_BCOS_SIGNATURE_DATA_LENGTH` -/
def FISCO_BCOS_SIGNATURE_DATA_LENGTH : Nat := 65

/-- `FISCO_BCOS_SIGNATURE_END_INDEX` -/
def FISCO_BCOS_SIGNATURE_END_INDEX : Nat :=
  FISCO_BCOS_SIGNATURE_DATA_LENGTH - 1

/-- `WedprSecp256k1Recover::sign`.  The Rust `recid.to_i32() as u8` cast is
`(· .emod 256).toNat` on the mathematical integer. -/
def sign (L : CurveLib) (private_key msg_hash : List Nat) :
    Except WedprError (List Nat) :=
  match L.secretKeyFromSlice private_key with
  | none => Except.error WedprError.FormatError
  | some secret_key =>
    match L.messageFromSlice msg_hash with
    | none => Except.error WedprError.FormatError
    | some msg_hash_obj =>
      let signature_obj := L.signRecoverable msg_hash_obj secret_key
      let recid := (L.serializeCompact signature_obj).1
      let signature_bytes := (L.serializeCompact signature_obj).2
      Except.ok
        (signature_bytes ++ [((L.recoveryIdToI32 recid).emod 256).toNat])

/-- `WedprSecp256k1Recover::recover_public_key`.  `signature[64] as i32` on a
`u8` is the value-preserving coercion `Nat → Int`. -/
def recover_public_key (L : CurveLib) (msg_hash signature : List Nat) :
    Except WedprError (List Nat) :=
  match L.messageFromSlice msg_hash with
  | none => Except.error WedprError.DecodeError
  | some msg_hash_obj =>
    if signature.length ≠ FISCO_BCOS_SIGNATURE_DATA_LENGTH then
      Except.error WedprError.DecodeError
    else
      match L.recoveryIdFromI32
          ((signature.getD FISCO_BCOS_SIGNATURE_END_INDEX 0 : Nat) : Int) with
      | none => Except.error WedprError.DecodeError
      | some rec_id =>
        -- `signature_byte` is `&signature[0..64]`
        match L.fromCompact (signature.take FISCO_BCOS_SIGNATURE_END_INDEX) rec_id with
        | none => Except.error WedprError.FormatError
        | some get_sign_final =>
          match L.recover msg_hash_obj get_sign_final with
          | none => Except.error WedprError.FormatError
          | some recovered_public_key =>
            Except.ok (L.serializeUncompressed recovered_public_key)

/-- `recover_public_key` re-embedded with `Option`-returning indexing:
`none` models a Rust panic on an out-of-bounds byte access (the read of
`signature[64]` and the slice `signature[0..64]`). -/
def recover_public_key_checked (L : CurveLib) (msg_hash signature : List Nat) :
    Option (Except WedprError (List Nat)) :=
  match L.messageFromSlice msg_hash with
  | none => some (Except.error WedprError.DecodeError)
  | some msg_hash_obj =>
    if signature.length ≠ FISCO_BCOS_SIGNATURE_DATA_LENGTH then
      some (Except.error WedprError.DecodeError)
    else
      match signature[FISCO_BCOS_SIGNATURE_END_INDEX]? with
      | none => none
      | some idByte =>
        match L.recoveryIdFromI32 ((idByte : Nat) : Int) with
        | none => some (Except.error WedprError.DecodeError)
        | some rec_id =>
          if FISCO_BCOS_SIGNATURE_END_INDEX ≤ signature.length then
            match L.fromCompact (signature.take FISCO_BCOS_SIGNATURE_END_INDEX) rec_id with
            | none => some (Except.error WedprError.FormatError)
            | some get_sign_final =>
              match L.recover msg_hash_obj get_sign_final with
              | none => some (Except.error WedprError.FormatError)
              | some recovered_public_key =>
                some (Except.ok (L.serializeUncompressed recovered_public_key))
          else none

/-- `WedprSecp256k1Recover::verify` -/
def verify (L : CurveLib) (public_key msg_hash signature : List Nat) : Bool :=
  match recover_public_key L msg_hash signature with
  | Except.error _ => false
  | Except.ok recovered =>
    if recovered ≠ public_key then false else true

/-- The `loop` body of `generate_keypair`: the random source is a stream of
secret-key draws `draws`, consumed from index `i`; `fuel` bounds the number
of iterations of the (source-unbounded) loop, `none` meaning the bound was
reached with every draw rejected. -/
def generateKeypairLoop (L : CurveLib) (draws : Nat → L.SecretKey) :
    Nat → Nat → Option (List Nat × List Nat)
  | 0, _ => none
  | fuel + 1, i =>
    let secret_key := draws i
    if 15 < (L.skBytes secret_key).getD 0 0 then
      some (L.serializeUncompressed (L.pubkeyOf secret_key),
            L.skBytes secret_key)
    else
      generateKeypairLoop L draws fuel (i + 1)

/-- `WedprSecp256k1Recover::generate_keypair` -/
def generate_keypair (L : CurveLib) (draws : Nat → L.SecretKey) (fuel : Nat) :
    Option (List Nat × List Nat) :=
  generateKeypairLoop L draws fuel 0

/-- A small concrete curve library satisfying `CurveLib.Spec`, used to
evaluate the operations on closed inputs. -/
@[reducible] def toyLib : CurveLib where
  SecretKey := Nat
  PublicKey := Nat
  Message := List Nat
  RecSig := Nat
  RecoveryId := Fin 4
  secretKeyFromSlice := fun bs =>
    match bs with
    | b :: rest => if rest = List.replicate 31 0 then some b else none
    | [] => none
  messageFromSlice := fun bs => if bs.length = 32 then some bs else none
  pubkeyOf := fun k => k
  signRecoverable := fun _ k => k
  serializeCompact := fun s => (0, s :: List.replicate 63 0)
  recoveryIdToI32 := fun r => (r.val : Int)
  recoveryIdFromI32 := fun i =>
    if h : 0 ≤ i ∧ i < 4 then some ⟨i.toNat, by omega⟩ else none
  fromCompact := fun bs _ =>
    match bs with
    | b :: rest => if rest = List.replicate 63 0 then some b else none
    | [] => none
  recover := fun _ s => some s
  serializeUncompressed := fun p => p :: List.replicate 64 0
  skBytes := fun k => k :: List.replicate 31 0

theorem toyLib_spec : toyLib.Spec where
  messageFromSlice_isSome := by
    intro m
    simp [toyLib]
  secretKeyFromSlice_skBytes := by
    intro k
    simp [toyLib]
  serializeCompact_length := by
    intro s
    simp [toyLib]
  recoveryIdToI32_nonneg := by
    intro r
    simp [toyLib]
  recoveryIdToI32_le := by
    intro r
    have := r.isLt
    simp only [toyLib]
    omega
  recoveryIdFromI32_toI32 := by
    intro r
    have := r.isLt
    simp only [toyLib]
    simp
  fromCompact_serializeCompact := by
    intro s
    simp [toyLib]
  recover_signRecoverable := by
    intro m k
    simp [toyLib]
  serializeUncompressed_length := by
    intro p
    simp [toyLib]

/-- A stream of toy secret-key draws for evaluating `generate_keypair`. -/
def toyDraws : Nat → toyLib.SecretKey := fun i => i

theorem DATA_LENGTH_eq : FISCO_BCOS_SIGNATURE_DATA_LENGTH = 65 := rfl

theorem END_INDEX_eq : FISCO_BCOS_SIGNATURE_END_INDEX = 64 := rfl

/-- Helper: the success path of `sign` (both parses succeed). -/
theorem sign_ok (L : CurveLib) {private_key msg_hash : List Nat}
    {k : L.SecretKey} {m : L.Message}
    (hk : L.secretKeyFromSlice private_key = some k)
    (hm : L.messageFromSlice msg_hash = some m) :
    sign L private_key msg_hash =
      Except.ok ((L.serializeCompact (L.signRecoverable m k)).2 ++
        [((L.recoveryIdToI32
            (L.serializeCompact (L.signRecoverable m k)).1).emod 256).toNat]) := by
  simp only [sign, hk, hm]

/-- Helper: running `recover_public_key` on a wire encoding produced the way
`sign` produces it reduces to the curve library's `recover`. -/
theorem recover_public_key_append (L : CurveLib) (hS : L.Spec)
    {msg_hash : List Nat} {m : L.Message}
    (hm : L.messageFromSlice msg_hash = some m) (s0 : L.RecSig) :
    recover_public_key L msg_hash
        ((L.serializeCompact s0).2 ++
          [((L.recoveryIdToI32 (L.serializeCompact s0).1).emod 256).toNat]) =
      (match L.recover m s0 with
        | none => Except.error WedprError.FormatError
        | some p => Except.ok (L.serializeUncompressed p)) := by
  have hb64 : (L.serializeCompact s0).2.length = 64 := hS.serializeCompact_length s0
  have h0 : (0 : Int) ≤ L.recoveryIdToI32 (L.serializeCompact s0).1 :=
    hS.recoveryIdToI32_nonneg _
  have h3 : L.recoveryIdToI32 (L.serializeCompact s0).1 ≤ 3 :=
    hS.recoveryIdToI32_le _
  have hemod : (L.recoveryIdToI32 (L.serializeCompact s0).1).emod 256 =
      L.recoveryIdToI32 (L.serializeCompact s0).1 :=
    Int.emod_eq_of_lt h0 (by omega)
  have hlen : ((L.serializeCompact s0).2 ++
      [((L.recoveryIdToI32 (L.serializeCompact s0).1).emod 256).toNat]).length = 65 := by
    simp [hb64]
  have hgd : ((L.serializeCompact s0).2 ++
      [((L.recoveryIdToI32 (L.serializeCompact s0).1).emod 256).toNat]).getD 64 0 =
      ((L.recoveryIdToI32 (L.serializeCompact s0).1).emod 256).toNat := by
    rw [List.getD_eq_getElem?_getD, ← hb64, List.getElem?_concat_length]
    rfl
  have htake : ((L.serializeCompact s0).2 ++
      [((L.recoveryIdToI32 (L.serializeCompact s0).1).emod 256).toNat]).take 64 =
      (L.serializeCompact s0).2 := by
    rw [← hb64, List.take_left]
  have hcast : ((((L.recoveryIdToI32 (L.serializeCompact s0).1).emod 256).toNat : Nat) : Int) =
      L.recoveryIdToI32 (L.serializeCompact s0).1 := by
    rw [hemod, Int.toNat_of_nonneg h0]
  simp only [recover_public_key, hm, DATA_LENGTH_eq, END_INDEX_eq, hlen, hgd, hcast,
    hS.recoveryIdFromI32_toI32, htake, hS.fromCompact_serializeCompact, ne_eq,
    not_true_eq_false, if_false, reduceIte]

/-- Helper: any successful output of `recover_public_key` is a 65-byte
uncompressed public key. -/
theorem recover_public_key_ok_length (L : CurveLib) (hS : L.Spec)
    {msg_hash signature out : List Nat}
    (h : recover_public_key L msg_hash signature = Except.ok out) :
    out.length = 65 := by
  unfold recover_public_key at h
  split at h
  · exact absurd h (by simp)
  · split at h
    · exact absurd h (by simp)
    · split at h
      · exact absurd h (by simp)
      · split at h
        · exact absurd h (by simp)
        · split at h
          · exact absurd h (by simp)
          · injection h with h
            rw [← h]
            exact hS.serializeUncompressed_length _

/-- Helper: the contents of a successful `generateKeypairLoop` run: the
returned pair is the serialization of the first accepted draw, every draw
before it having been rejected by the weak-key filter. -/
theorem generateKeypairLoop_eq_some (L : CurveLib) (draws : Nat → L.SecretKey) :
    ∀ fuel i pk sk, generateKeypairLoop L draws fuel i = some (pk, sk) →
      ∃ n, i ≤ n ∧
        (∀ j, i ≤ j → j < n → (L.skBytes (draws j)).getD 0 0 ≤ 15) ∧
        15 < (L.skBytes (draws n)).getD 0 0 ∧
        pk = L.serializeUncompressed (L.pubkeyOf (draws n)) ∧
        sk = L.skBytes (draws n) := by
  intro fuel
  induction fuel with
  | zero =>
    intro i pk sk h
    simp [generateKeypairLoop] at h
  | succ fuel ih =>
    intro i pk sk h
    simp only [generateKeypairLoop] at h
    by_cases hb : 15 < (L.skBytes (draws i)).getD 0 0
    · rw [if_pos hb] at h
      injection h with h
      injection h with h1 h2
      exact ⟨i, le_refl i, fun j hij hji => absurd (lt_of_le_of_lt hij hji) (lt_irrefl i),
        hb, h1.symm, h2.symm⟩
    · rw [if_neg hb] at h
      obtain ⟨n, hin, hall, hthr, hpk, hsk⟩ := ih (i + 1) pk sk h
      refine ⟨n, by omega, fun j hij hjn => ?_, hthr, hpk, hsk⟩
      rcases Nat.eq_or_lt_of_le hij with hji | hji
      · rw [← hji]
        omega
      · exact hall j hji hjn

/-- C3: `verify` is a total boolean function; it returns `true` exactly when
`recover_public_key` succeeds and the recovered key equals the supplied
public key byte-for-byte, and every failure of the recovery path yields
`false`. -/
theorem verify_iff_recover_eq (L : CurveLib) (public_key msg_hash signature : List Nat) :
    (verify L public_key msg_hash signature = true ↔
      recover_public_key L msg_hash signature = Except.ok public_key) ∧
    (∀ e, recover_public_key L msg_hash signature = Except.error e →
      verify L public_key msg_hash signature = false) := by
  unfold verify
  cases h : recover_public_key L msg_hash signature with
  | error e => simp
  | ok recovered =>
    constructor
    · by_cases heq : recovered = public_key <;> simp [heq]
    · intro e he
      exact absurd he (by simp)

/-- C4: `recover_public_key` on a signature whose length is not 65 always
fails with `DecodeError`, whatever the message hash is. -/
theorem recover_public_key_wrong_length (L : CurveLib) (msg_hash signature : List Nat)
    (h : signature.length ≠ 65) :
    recover_public_key L msg_hash signature = Except.error WedprError.DecodeError := by
  unfold recover_public_key
  cases L.messageFromSlice msg_hash with
  | none => rfl
  | some m => simp [DATA_LENGTH_eq, h]

/-- Witness for C4 at signature length 0. -/
theorem recover_public_key_wrong_length_witness :
    ([] : List Nat).length ≠ 65 ∧
      recover_public_key toyLib (List.replicate 32 0) [] =
        Except.error WedprError.DecodeError :=
  ⟨by decide, recover_public_key_wrong_length toyLib (List.replicate 32 0) [] (by decide)⟩

/-- C7: `sign` fails exactly when the private key or the message hash fails
to parse, and in that case the error is always `FormatError`. -/
theorem sign_error_characterization (L : CurveLib) (private_key msg_hash : List Nat)
    (e : WedprError) :
    sign L private_key msg_hash = Except.error e ↔
      (e = WedprError.FormatError ∧
        (L.secretKeyFromSlice private_key = none ∨
          L.messageFromSlice msg_hash = none)) := by
  unfold sign
  cases hk : L.secretKeyFromSlice private_key with
  | none => simp [eq_comm]
  | some k =>
    cases hm : L.messageFromSlice msg_hash with
    | none => simp [eq_comm]
    | some m => simp

/-- C10: the byte accesses of `recover_public_key` into the signature are in
bounds: the embedding with `Option`-returning indexing never reaches its
out-of-bounds branch and agrees with the total embedding on every input. -/
theorem recover_public_key_no_oob (L : CurveLib) (msg_hash signature : List Nat) :
    recover_public_key_checked L msg_hash signature =
      some (recover_public_key L msg_hash signature) := by
  unfold recover_public_key_checked recover_public_key
  cases hm : L.messageFromSlice msg_hash with
  | none => rfl
  | some m =>
    by_cases hlen : signature.length = FISCO_BCOS_SIGNATURE_DATA_LENGTH
    · have h64 : 64 < signature.length := by
        rw [hlen]
        decide
      have hidx : signature[64]? = some (signature.getD 64 0) := by
        rw [List.getD_eq_getElem?_getD, List.getElem?_eq_getElem h64]
        rfl
      simp only [hlen, hidx, DATA_LENGTH_eq, END_INDEX_eq, ne_eq, not_true_eq_false,
        if_false, Nat.reduceLeDiff, if_true, reduceIte]
      split
      · rfl
      · split
        · rfl
        · split
          · rfl
          · rfl
    · simp [hlen]

/-- C1: round-trip — for every key pair (pk, sk) returned by
`generate_keypair` and every 32-byte digest d, `sign sk d` succeeds and
`verify pk d (sign sk d)` returns `true`. -/
theorem verify_sign_roundtrip (L : CurveLib) (hS : L.Spec)
    (draws : Nat → L.SecretKey) (fuel : Nat) (pk sk : List Nat)
    (hg : generate_keypair L draws fuel = some (pk, sk))
    (d : List Nat) (hd : d.length = 32) :
    ∃ s, sign L sk d = Except.ok s ∧ verify L pk d s = true := by
  obtain ⟨n, -, -, -, hpk, hsk⟩ :=
    generateKeypairLoop_eq_some L draws fuel 0 pk sk hg
  have hk : L.secretKeyFromSlice sk = some (draws n) := by
    rw [hsk]
    exact hS.secretKeyFromSlice_skBytes (draws n)
  obtain ⟨m, hm⟩ :=
    Option.isSome_iff_exists.mp ((hS.messageFromSlice_isSome d).mpr hd)
  refine ⟨_, sign_ok L hk hm, ?_⟩
  have hrec : recover_public_key L d
      ((L.serializeCompact (L.signRecoverable m (draws n))).2 ++
        [((L.recoveryIdToI32
            (L.serializeCompact (L.signRecoverable m (draws n))).1).emod 256).toNat]) =
      Except.ok (L.serializeUncompressed (L.pubkeyOf (draws n))) := by
    have h := recover_public_key_append L hS hm (L.signRecoverable m (draws n))
    rw [hS.recover_signRecoverable] at h
    exact h
  unfold verify
  rw [hrec]
  simp [hpk]

/-- Witness for C1: a concrete key pair and digest over the toy curve
library. -/
theorem verify_sign_roundtrip_witness :
    generate_keypair toyLib toyDraws 20 =
        some (16 :: List.replicate 64 0, 16 :: List.replicate 31 0) ∧
      (List.replicate 32 0).length = 32 ∧
      ∃ s, sign toyLib (16 :: List.replicate 31 0) (List.replicate 32 0) =
          Except.ok s ∧
        verify toyLib (16 :: List.replicate 64 0) (List.replicate 32 0) s = true :=
  ⟨by decide, by decide,
    verify_sign_roundtrip toyLib toyLib_spec toyDraws 20
      (16 :: List.replicate 64 0) (16 :: List.replicate 31 0) (by decide)
      (List.replicate 32 0) (by decide)⟩

/-- C2: recovery consistency — for every key pair (pk, sk) returned by
`generate_keypair` and every 32-byte digest d, `recover_public_key d (sign sk d)`
succeeds and returns exactly pk. -/
theorem recover_public_key_sign_consistency (L : CurveLib) (hS : L.Spec)
    (draws : Nat → L.SecretKey) (fuel : Nat) (pk sk : List Nat)
    (hg : generate_keypair L draws fuel = some (pk, sk))
    (d : List Nat) (hd : d.length = 32) :
    ∃ s, sign L sk d = Except.ok s ∧
      recover_public_key L d s = Except.ok pk := by
  obtain ⟨n, -, -, -, hpk, hsk⟩ :=
    generateKeypairLoop_eq_some L draws fuel 0 pk sk hg
  have hk : L.secretKeyFromSlice sk = some (draws n) := by
    rw [hsk]
    exact hS.secretKeyFromSlice_skBytes (draws n)
  obtain ⟨m, hm⟩ :=
    Option.isSome_iff_exists.mp ((hS.messageFromSlice_isSome d).mpr hd)
  refine ⟨_, sign_ok L hk hm, ?_⟩
  rw [hpk]
  have h := recover_public_key_append L hS hm (L.signRecoverable m (draws n))
  rw [hS.recover_signRecoverable] at h
  exact h

/-- Witness for C2: a concrete key pair and digest over the toy curve
library. -/
theorem recover_public_key_sign_consistency_witness :
    generate_keypair toyLib toyDraws 20 =
        some (16 :: List.replicate 64 0, 16 :: List.replicate 31 0) ∧
      (List.replicate 32 1).length = 32 ∧
      ∃ s, sign toyLib (16 :: List.replicate 31 0) (List.replicate 32 1) =
          Except.ok s ∧
        recover_public_key toyLib (List.replicate 32 1) s =
          Except.ok (16 :: List.replicate 64 0) :=
  ⟨by decide, by decide,
    recover_public_key_sign_consistency toyLib toyLib_spec toyDraws 20
      (16 :: List.replicate 64 0) (16 :: List.replicate 31 0) (by decide)
      (List.replicate 32 1) (by decide)⟩

/-- C5: failure-tier classification of `recover_public_key` on a 32-byte
digest and 65-byte signature: an unparsable recovery-id byte at index 64
yields `DecodeError`, while a failure of `from_compact` on the 64-byte body
or a failure of point recovery yields `FormatError`. -/
theorem recover_public_key_failure_tiers (L : CurveLib) (hS : L.Spec)
    (msg_hash signature : List Nat) (hd : msg_hash.length = 32)
    (hlen : signature.length = 65) :
    (L.recoveryIdFromI32 ((signature.getD 64 0 : Nat) : Int) = none →
      recover_public_key L msg_hash signature =
        Except.error WedprError.DecodeError) ∧
    (∀ rec_id, L.recoveryIdFromI32 ((signature.getD 64 0 : Nat) : Int) = some rec_id →
      L.fromCompact (signature.take 64) rec_id = none →
      recover_public_key L msg_hash signature =
        Except.error WedprError.FormatError) ∧
    (∀ rec_id get_sign_final m,
      L.recoveryIdFromI32 ((signature.getD 64 0 : Nat) : Int) = some rec_id →
      L.fromCompact (signature.take 64) rec_id = some get_sign_final →
      L.messageFromSlice msg_hash = some m →
      L.recover m get_sign_final = none →
      recover_public_key L msg_hash signature =
        Except.error WedprError.FormatError) := by
  obtain ⟨m0, hm0⟩ :=
    Option.isSome_iff_exists.mp ((hS.messageFromSlice_isSome msg_hash).mpr hd)
  refine ⟨?_, ?_, ?_⟩
  · intro hr
    simp only [recover_public_key, hm0, DATA_LENGTH_eq, END_INDEX_eq, hlen, ne_eq,
      not_true_eq_false, if_false, reduceIte, hr]
  · intro rec_id hr hfc
    simp only [recover_public_key, hm0, DATA_LENGTH_eq, END_INDEX_eq, hlen, ne_eq,
      not_true_eq_false, if_false, reduceIte, hr, hfc]
  · intro rec_id get_sign_final m hr hfc hm hrec
    simp only [recover_public_key, hm, DATA_LENGTH_eq, END_INDEX_eq, hlen, ne_eq,
      not_true_eq_false, if_false, reduceIte, hr, hfc, hrec]

/-- Witness for C5 at a concrete 32-byte digest and 65-byte signature. -/
theorem recover_public_key_failure_tiers_witness :
    (List.replicate 32 0).length = 32 ∧ (List.replicate 65 0).length = 65 ∧
      ((toyLib.recoveryIdFromI32 (((List.replicate 65 0).getD 64 0 : Nat) : Int) = none →
        recover_public_key toyLib (List.replicate 32 0) (List.replicate 65 0) =
          Except.error WedprError.DecodeError) ∧
      (∀ rec_id,
        toyLib.recoveryIdFromI32 (((List.replicate 65 0).getD 64 0 : Nat) : Int) =
          some rec_id →
        toyLib.fromCompact ((List.replicate 65 0).take 64) rec_id = none →
        recover_public_key toyLib (List.replicate 32 0) (List.replicate 65 0) =
          Except.error WedprError.FormatError) ∧
      (∀ rec_id get_sign_final m,
        toyLib.recoveryIdFromI32 (((List.replicate 65 0).getD 64 0 : Nat) : Int) =
          some rec_id →
        toyLib.fromCompact ((List.replicate 65 0).take 64) rec_id = some get_sign_final →
        toyLib.messageFromSlice (List.replicate 32 0) = some m →
        toyLib.recover m get_sign_final = none →
        recover_public_key toyLib (List.replicate 32 0) (List.replicate 65 0) =
          Except.error WedprError.FormatError)) :=
  ⟨by decide, by decide,
    recover_public_key_failure_tiers toyLib toyLib_spec
      (List.replicate 32 0) (List.replicate 65 0) (by decide) (by decide)⟩

/-- C6: on a private key that parses as a valid scalar and a message hash
that parses as a valid digest, `sign` succeeds and outputs exactly 65 bytes:
the 64-byte compact serialization followed by the recovery id re-encoded as
an unsigned byte. -/
theorem sign_output_format (L : CurveLib) (hS : L.Spec)
    (private_key msg_hash : List Nat) (k : L.SecretKey) (m : L.Message)
    (hk : L.secretKeyFromSlice private_key = some k)
    (hm : L.messageFromSlice msg_hash = some m) :
    sign L private_key msg_hash =
      Except.ok ((L.serializeCompact (L.signRecoverable m k)).2 ++
        [((L.recoveryIdToI32
            (L.serializeCompact (L.signRecoverable m k)).1).emod 256).toNat]) ∧
    ((L.serializeCompact (L.signRecoverable m k)).2 ++
      [((L.recoveryIdToI32
          (L.serializeCompact (L.signRecoverable m k)).1).emod 256).toNat]).length = 65 := by
  refine ⟨sign_ok L hk hm, ?_⟩
  simp [hS.serializeCompact_length]

/-- Witness for C6 at a concrete valid private key and digest. -/
theorem sign_output_format_witness :
    toyLib.secretKeyFromSlice (7 :: List.replicate 31 0) = some 7 ∧
      toyLib.messageFromSlice (List.replicate 32 0) = some (List.replicate 32 0) ∧
      (sign toyLib (7 :: List.replicate 31 0) (List.replicate 32 0) =
        Except.ok ((toyLib.serializeCompact
            (toyLib.signRecoverable (List.replicate 32 0) 7)).2 ++
          [((toyLib.recoveryIdToI32 (toyLib.serializeCompact
              (toyLib.signRecoverable (List.replicate 32 0) 7)).1).emod 256).toNat]) ∧
      ((toyLib.serializeCompact (toyLib.signRecoverable (List.replicate 32 0) 7)).2 ++
        [((toyLib.recoveryIdToI32 (toyLib.serializeCompact
            (toyLib.signRecoverable (List.replicate 32 0) 7)).1).emod 256).toNat]).length = 65) :=
  ⟨by decide, by decide,
    sign_output_format toyLib toyLib_spec (7 :: List.replicate 31 0)
      (List.replicate 32 0) 7 (List.replicate 32 0) (by decide) (by decide)⟩

/-- C8: every key pair returned by `generate_keypair` has a private key
whose first byte is strictly greater than 15, and it is the serialization of
the first random draw satisfying that threshold — every earlier draw having
first byte ≤ 15 was discarded. -/
theorem generate_keypair_weak_key_excluded (L : CurveLib)
    (draws : Nat → L.SecretKey) (fuel : Nat) (pk sk : List Nat)
    (h : generate_keypair L draws fuel = some (pk, sk)) :
    15 < sk.getD 0 0 ∧
      ∃ n, (∀ j, j < n → (L.skBytes (draws j)).getD 0 0 ≤ 15) ∧
        15 < (L.skBytes (draws n)).getD 0 0 ∧
        pk = L.serializeUncompressed (L.pubkeyOf (draws n)) ∧
        sk = L.skBytes (draws n) := by
  obtain ⟨n, -, hall, hthr, hpk, hsk⟩ :=
    generateKeypairLoop_eq_some L draws fuel 0 pk sk h
  exact ⟨by rw [hsk]; exact hthr, n,
    fun j hj => hall j (Nat.zero_le j) hj, hthr, hpk, hsk⟩

/-- Witness for C8: a toy draw stream whose draws 0..15 are all weak and
whose draw 16 is the first accepted one. -/
theorem generate_keypair_weak_key_excluded_witness :
    generate_keypair toyLib toyDraws 20 =
        some (16 :: List.replicate 64 0, 16 :: List.replicate 31 0) ∧
      (15 < (16 :: List.replicate 31 0).getD 0 0 ∧
        ∃ n, (∀ j, j < n → (toyLib.skBytes (toyDraws j)).getD 0 0 ≤ 15) ∧
          15 < (toyLib.skBytes (toyDraws n)).getD 0 0 ∧
          (16 :: List.replicate 64 0) =
            toyLib.serializeUncompressed (toyLib.pubkeyOf (toyDraws n)) ∧
          (16 :: List.replicate 31 0) = toyLib.skBytes (toyDraws n)) :=
  ⟨by decide,
    generate_keypair_weak_key_excluded toyLib toyDraws 20
      (16 :: List.replicate 64 0) (16 :: List.replicate 31 0) (by decide)⟩

/-- C9: `verify` returns `false` whenever the supplied public key does not
have length 65, because a successful recovery always returns a 65-byte
uncompressed key, so the byte-for-byte comparison cannot succeed. -/
theorem verify_false_on_wrong_length_key (L : CurveLib) (hS : L.Spec)
    (public_key msg_hash signature : List Nat) (hpk : public_key.length ≠ 65) :
    verify L public_key msg_hash signature = false := by
  unfold verify
  cases h : recover_public_key L msg_hash signature with
  | error e => rfl
  | ok recovered =>
    have hlen : recovered.length = 65 := recover_public_key_ok_length L hS h
    have hne : recovered ≠ public_key := fun he => hpk (he ▸ hlen)
    simp [hne]

/-- Witness for C9 at an empty supplied public key. -/
theorem verify_false_on_wrong_length_key_witness :
    ([] : List Nat).length ≠ 65 ∧
      verify toyLib [] (List.replicate 32 0) (List.replicate 65 0) = false :=
  ⟨by decide,
    verify_false_on_wrong_length_key toyLib toyLib_spec []
      (List.replicate 32 0) (List.replicate 65 0) (by decide)⟩

end WedprSecp256k1
